import Mathlib

/-!
# Verification of the omni-relayer fee estimator (`src/main.rs`)

Shallow embedding of the fee-estimation CLI. The program is a sequence of
network lookups (NEAR gas price, EVM gas price, coingecko token price)
followed by `u128` arithmetic, a cast to `f64`, a division by a power of
ten, and formatted printing.

Modelling decisions:

* Network effects are abstracted as an oracle `Net` supplying the values the
  RPC calls would return; every network call a run performs is recorded in a
  `NetCall` log, in the order the Rust code awaits them.
* Rust `u128` arithmetic is checked: a product or sum that does not fit in
  128 bits is an arithmetic-overflow panic, modelled as `none` (`u128chk`).
* The `as f64 / 1eN` display conversion is modelled exactly over `ℚ`: both
  the code and the specification formulas apply the identical conversion to
  the identical integer, so the same exact rational represents both sides.
* A `println!` is modelled as the record `FeeLine` of everything the format
  string interpolates; `{:?}` on the chain is `chainText`.  The `println!`
  arguments (including the awaited token price) are evaluated before any
  output is produced, as in Rust, so a failing argument yields no line.
-/

/-- `omni_types::ChainKind`, the chain selector parsed from `-d`. -/
inductive ChainKind
  | Near
  | Eth
  | Base
  | Arb
  | Sol
deriving DecidableEq, Repr

/-- RPC endpoint for NEAR (`NEAR_RPC` in `main.rs`). -/
def NEAR_RPC : String := "https://rpc.mainnet.near.org"

/-- RPC endpoint for Base (`BASE_RPC` in `main.rs`). -/
def BASE_RPC : String := "https://base.llamarpc.com"

/-- RPC endpoint for Arbitrum (`ARB_RPC` in `main.rs`). -/
def ARB_RPC : String := "https://arbitrum.llamarpc.com"

/-- `NEAR_FIN_TRANSFER_DEPOSIT: u128`, the fixed NEAR bridge deposit in yocto. -/
def NEAR_FIN_TRANSFER_DEPOSIT : ℕ := 600000000000000000000

/-- `NEAR_GAS: u128`, gas consumed by one NEAR bridge transfer. -/
def NEAR_GAS : ℕ := 33220000000000

/-- `BASE_GAS: u128`, gas consumed by one Base bridge transfer. -/
def BASE_GAS : ℕ := 127652

/-- `ARB_GAS: u128`, gas consumed by one Arbitrum bridge transfer. -/
def ARB_GAS : ℕ := 149503

/-- `SOLANA_GAS: u64`, lamports consumed by one Solana bridge transfer. -/
def SOLANA_GAS : ℕ := 103372

/-- The number of `u128` values: `2 ^ 128`. -/
def U128 : ℕ := 2 ^ 128

/-- Checked `u128` arithmetic: a value that does not fit in 128 bits is an
overflow panic (`none`). -/
def u128chk (n : ℕ) : Option ℕ := if n < U128 then some n else none

/-- One network request awaited during a run. -/
inductive NetCall
  | nearGasPrice
  | evmGasPrice (chain : ChainKind)
  | tokenPrice (token : String) (currency : String)
deriving DecidableEq, Repr

/-- Oracle abstracting the network: the values the three kinds of requests
would return on this run.  `tokenPrice tok cur = none` models a coingecko
JSON response whose `[tok][cur]` field is absent (so `.as_f64().unwrap()`
panics); a present finite `f64` price is represented exactly as a rational. -/
structure Net where
  nearGasPrice : ℕ
  evmGasPrice : ChainKind → ℕ
  tokenPrice : String → String → Option ℚ

/-- The coingecko token id the match at the top of `get_token_price` assigns
to each chain. -/
def price_token_id : ChainKind → String
  | ChainKind.Near => "near"
  | ChainKind.Eth | ChainKind.Base | ChainKind.Arb => "ethereum"
  | ChainKind.Sol => "solana"

/-- `get_token_price`: one HTTP GET to coingecko, then
`response[token][currency].as_f64().unwrap()`.  Returns the calls made and
the price (`none` = the unwrap panicked because the field was missing). -/
def get_token_price (net : Net) (chain : ChainKind) (currency : String) :
    List NetCall × Option ℚ :=
  let token := price_token_id chain
  ([NetCall.tokenPrice token currency], net.tokenPrice token currency)

/-- `get_near_gas_price`: one JSON-RPC gas-price request against `NEAR_RPC`
(latest block), yielding a `u128` gas price. -/
def get_near_gas_price (net : Net) : List NetCall × ℕ :=
  ([NetCall.nearGasPrice], net.nearGasPrice)

/-- The integer `(gas_price * NEAR_GAS + NEAR_FIN_TRANSFER_DEPOSIT) * amount`
computed in `get_near_fees`, with each `u128` operation checked. -/
def near_total_units (g amount : ℕ) : Option ℕ :=
  (u128chk (g * NEAR_GAS)).bind fun x =>
    (u128chk (x + NEAR_FIN_TRANSFER_DEPOSIT)).bind fun y =>
      u128chk (y * amount)

/-- `total_near` in `get_near_fees`: the units cast to `f64` and divided by
`1e24`, modelled exactly over `ℚ`. -/
def near_burn (g amount : ℕ) : Option ℚ :=
  match near_total_units g amount with
  | none => none
  | some u => some ((u : ℚ) / 10 ^ 24)

/-- The integer `gas_price * gas * amount` computed in `get_evm_fees`, with
each `u128` operation checked. -/
def evm_total_units (gp gas amount : ℕ) : Option ℕ :=
  (u128chk (gp * gas)).bind fun x => u128chk (x * amount)

/-- `total_eth` in `get_evm_fees`: the units cast to `f64` and divided by
`1e18`, modelled exactly over `ℚ`. -/
def evm_burn (gp gas amount : ℕ) : Option ℚ :=
  match evm_total_units gp gas amount with
  | none => none
  | some u => some ((u : ℚ) / 10 ^ 18)

/-- The integer `SOLANA_GAS as u128 * amount` computed in `get_solana_fees`,
checked. -/
def sol_total_units (amount : ℕ) : Option ℕ :=
  u128chk (SOLANA_GAS * amount)

/-- `total_sol` in `get_solana_fees`: the units cast to `f64` and divided by
`1e9`, modelled exactly over `ℚ`. -/
def sol_burn (amount : ℕ) : Option ℚ :=
  match sol_total_units amount with
  | none => none
  | some u => some ((u : ℚ) / 10 ^ 9)

/-- Everything one fee `println!` interpolates: the transfer count, the chain
(and the text the format string shows for it), the burn (with the number of
decimals the format spec requests), the token suffix, the fiat value and the
currency code. -/
structure FeeLine where
  chain : ChainKind
  chainText : String
  amount : ℕ
  burn : ℚ
  burnDecimals : ℕ
  tokenText : String
  fiat : ℚ
  currency : String
deriving DecidableEq, Repr

/-- `get_near_fees`: fetch the NEAR gas price, compute `total_near`, then
print one line whose fiat part awaits the NEAR token price.  Returns the
calls made and the printed line (`none` = a panic, so nothing printed). -/
def get_near_fees (net : Net) (amount : ℕ) (currency : String) :
    List NetCall × Option FeeLine :=
  let (c1, g) := get_near_gas_price net
  match near_burn g amount with
  | none => (c1, none)
  | some total_near =>
    let (c2, price?) := get_token_price net ChainKind.Near currency
    match price? with
    | none => (c1 ++ c2, none)
    | some price =>
      (c1 ++ c2, some
        { chain := ChainKind.Near
          chainText := "NEAR"
          amount := amount
          burn := total_near
          burnDecimals := 3
          tokenText := "NEARs"
          fiat := total_near * price
          currency := currency })

/-- The match at the top of `get_evm_gas_price`: the RPC url for Base or
Arb; any other chain hits the `unreachable!` (`none`). -/
def evm_rpc_url : ChainKind → Option String
  | ChainKind.Base => some BASE_RPC
  | ChainKind.Arb => some ARB_RPC
  | _ => none

/-- `get_evm_gas_price`: resolve the RPC url (panicking on a non-EVM chain
before any request), then one `get_gas_price` provider call. -/
def get_evm_gas_price (net : Net) (chain : ChainKind) :
    List NetCall × Option ℕ :=
  match evm_rpc_url chain with
  | none => ([], none)
  | some _ => ([NetCall.evmGasPrice chain], some (net.evmGasPrice chain))

/-- The text Rust `{:?}` debug formatting produces for a `ChainKind`
(derived `Debug` prints the variant name). -/
def chainDebugText : ChainKind → String
  | ChainKind.Near => "Near"
  | ChainKind.Eth => "Eth"
  | ChainKind.Base => "Base"
  | ChainKind.Arb => "Arb"
  | ChainKind.Sol => "Sol"

/-- The match at the top of `get_evm_fees`: the gas constant for Base or
Arb; any other chain hits the `unreachable!` (`none`). -/
def evm_gas_const : ChainKind → Option ℕ
  | ChainKind.Base => some BASE_GAS
  | ChainKind.Arb => some ARB_GAS
  | _ => none

/-- `get_evm_fees`: resolve the gas constant (panicking on a non-EVM chain),
fetch the gas price, compute `total_eth`, then print one line whose fiat
part awaits the token price ("ethereum" for both Base and Arb). -/
def get_evm_fees (net : Net) (chain : ChainKind) (amount : ℕ)
    (currency : String) : List NetCall × Option FeeLine :=
  match evm_gas_const chain with
  | none => ([], none)
  | some gas =>
    let (c1, gp?) := get_evm_gas_price net chain
    match gp? with
    | none => (c1, none)
    | some gp =>
      match evm_burn gp gas amount with
      | none => (c1, none)
      | some total_eth =>
        let (c2, price?) := get_token_price net chain currency
        match price? with
        | none => (c1 ++ c2, none)
        | some price =>
          (c1 ++ c2, some
            { chain := chain
              chainText := chainDebugText chain
              amount := amount
              burn := total_eth
              burnDecimals := 3
              tokenText := "ETHs"
              fiat := total_eth * price
              currency := currency })

/-- `get_solana_fees`: no gas-price request (fixed `SOLANA_GAS`), compute
`total_sol`, then print one line whose fiat part awaits the Solana token
price. -/
def get_solana_fees (net : Net) (amount : ℕ) (currency : String) :
    List NetCall × Option FeeLine :=
  match sol_burn amount with
  | none => ([], none)
  | some total_sol =>
    let (c1, price?) := get_token_price net ChainKind.Sol currency
    match price? with
    | none => (c1, none)
    | some price =>
      (c1, some
        { chain := ChainKind.Sol
          chainText := "Solana"
          amount := amount
          burn := total_sol
          burnDecimals := 6
          tokenText := "SOLs"
          fiat := total_sol * price
          currency := currency })

/-- The parsed CLI arguments (`Args` in `main.rs`); clap defaults are
`amount = 1000`, `currency = "usd"`. -/
structure Args where
  destination_chain : Option ChainKind
  amount : ℕ
  currency : String
deriving DecidableEq, Repr

/-- Observable outcome of one program run: the network calls awaited, the
fee lines printed to stdout, the notices printed to stderr, and whether the
process terminated normally (`ok = false` = it aborted on a panic). -/
structure RunResult where
  calls : List NetCall
  stdout : List FeeLine
  stderr : List String
  ok : Bool
deriving DecidableEq, Repr

/-- Sequentially await one fee computation: if the run already aborted
nothing more happens; otherwise record its calls and either append its line
or abort. -/
def seqFee (acc : RunResult) (f : List NetCall × Option FeeLine) : RunResult :=
  if acc.ok then
    match f with
    | (cs, some l) =>
      { acc with calls := acc.calls ++ cs, stdout := acc.stdout ++ [l] }
    | (cs, none) => { acc with calls := acc.calls ++ cs, ok := false }
  else acc

/-- The empty run: nothing awaited, nothing printed, still alive. -/
def initRun : RunResult := ⟨[], [], [], true⟩

/-- The notice `main` prints to stderr for destination chain Eth. -/
def ethNotice : String := "Fee calculation for Ethereum chain is not supported yet"

/-- `main`: dispatch on the parsed destination chain — one calculator for
Near/Base/Arb/Sol, a stderr notice for Eth, and the fixed Near, Base, Arb,
Sol sequence when the argument is absent. -/
def runMain (net : Net) (args : Args) : RunResult :=
  match args.destination_chain with
  | some ChainKind.Near => seqFee initRun (get_near_fees net args.amount args.currency)
  | some ChainKind.Eth => { initRun with stderr := [ethNotice] }
  | some ChainKind.Base =>
    seqFee initRun (get_evm_fees net ChainKind.Base args.amount args.currency)
  | some ChainKind.Arb =>
    seqFee initRun (get_evm_fees net ChainKind.Arb args.amount args.currency)
  | some ChainKind.Sol => seqFee initRun (get_solana_fees net args.amount args.currency)
  | none =>
    seqFee
      (seqFee
        (seqFee
          (seqFee initRun (get_near_fees net args.amount args.currency))
          (get_evm_fees net ChainKind.Base args.amount args.currency))
        (get_evm_fees net ChainKind.Arb args.amount args.currency))
      (get_solana_fees net args.amount args.currency)

/-- A fully answering oracle used to instantiate theorems at concrete
inputs: gas price 100000000 everywhere, every token priced at 1. -/
def netW : Net :=
  { nearGasPrice := 100000000
    evmGasPrice := fun _ => 100000000
    tokenPrice := fun _ _ => some 1 }

/-- An oracle whose price responses all lack the requested field
(`response = the empty object`), used to instantiate the abort theorems. -/
def netNoPrice : Net :=
  { nearGasPrice := 100000000
    evmGasPrice := fun _ => 100000000
    tokenPrice := fun _ _ => none }

/-- Placeholder line used only to project concrete `Option FeeLine` values
in witnesses. -/
def dummyLine : FeeLine :=
  ⟨ChainKind.Near, "", 0, 0, 0, "", 0, ""⟩

/-- An `Option` that is `some` equals `some` of its `getD` projection. -/
theorem opt_eq_some_getD {α : Type} (o : Option α) (d : α) (h : o.isSome = true) :
    o = some (o.getD d) := by
  cases o
  · simp at h
  · rfl

/-- Unfolding a successful checked `u128` operation. -/
theorem u128chk_some {n m : ℕ} (h : u128chk n = some m) : m = n ∧ n < U128 := by
  by_cases h1 : n < U128
  · simp [u128chk, h1] at h
    exact ⟨h.symm, h1⟩
  · simp [u128chk, h1] at h

/-- A value below `U128` passes the checked `u128` operation. -/
theorem u128chk_of_lt {n : ℕ} (h : n < U128) : u128chk n = some n := by
  simp [u128chk, h]

/-- A successful `near_total_units` is the un-wrapped product, and every
intermediate `u128` value fit. -/
theorem near_total_units_some {g a u : ℕ} (h : near_total_units g a = some u) :
    u = (g * NEAR_GAS + NEAR_FIN_TRANSFER_DEPOSIT) * a ∧
      g * NEAR_GAS < U128 ∧
      g * NEAR_GAS + NEAR_FIN_TRANSFER_DEPOSIT < U128 ∧
      (g * NEAR_GAS + NEAR_FIN_TRANSFER_DEPOSIT) * a < U128 := by
  unfold near_total_units at h
  rcases h1 : u128chk (g * NEAR_GAS) with _ | x
  · rw [h1, Option.none_bind] at h
    exact Option.noConfusion h
  · rw [h1, Option.some_bind] at h
    obtain ⟨rfl, hx⟩ := u128chk_some h1
    rcases h2 : u128chk (g * NEAR_GAS + NEAR_FIN_TRANSFER_DEPOSIT) with _ | y
    · rw [h2, Option.none_bind] at h
      exact Option.noConfusion h
    · rw [h2, Option.some_bind] at h
      obtain ⟨rfl, hy⟩ := u128chk_some h2
      obtain ⟨rfl, hu⟩ := u128chk_some h
      exact ⟨rfl, hx, hy, hu⟩

/-- `near_total_units` succeeds whenever every intermediate value fits. -/
theorem near_total_units_of_lt {g a : ℕ} (h1 : g * NEAR_GAS < U128)
    (h2 : g * NEAR_GAS + NEAR_FIN_TRANSFER_DEPOSIT < U128)
    (h3 : (g * NEAR_GAS + NEAR_FIN_TRANSFER_DEPOSIT) * a < U128) :
    near_total_units g a = some ((g * NEAR_GAS + NEAR_FIN_TRANSFER_DEPOSIT) * a) := by
  unfold near_total_units
  rw [u128chk_of_lt h1, Option.some_bind, u128chk_of_lt h2, Option.some_bind,
    u128chk_of_lt h3]

/-- A successful `evm_total_units` is the un-wrapped product, and every
intermediate `u128` value fit. -/
theorem evm_total_units_some {gp gas a u : ℕ} (h : evm_total_units gp gas a = some u) :
    u = gp * gas * a ∧ gp * gas < U128 ∧ gp * gas * a < U128 := by
  unfold evm_total_units at h
  rcases h1 : u128chk (gp * gas) with _ | x
  · rw [h1, Option.none_bind] at h
    exact Option.noConfusion h
  · rw [h1, Option.some_bind] at h
    obtain ⟨rfl, hx⟩ := u128chk_some h1
    obtain ⟨rfl, hu⟩ := u128chk_some h
    exact ⟨rfl, hx, hu⟩

/-- `evm_total_units` succeeds whenever every intermediate value fits. -/
theorem evm_total_units_of_lt {gp gas a : ℕ} (h1 : gp * gas < U128)
    (h2 : gp * gas * a < U128) :
    evm_total_units gp gas a = some (gp * gas * a) := by
  unfold evm_total_units
  rw [u128chk_of_lt h1, Option.some_bind, u128chk_of_lt h2]

/-- A successful `near_burn` is the exact scaled product. -/
theorem near_burn_some {g a : ℕ} {b : ℚ} (h : near_burn g a = some b) :
    b = (((g * NEAR_GAS + NEAR_FIN_TRANSFER_DEPOSIT) * a : ℕ) : ℚ) / 10 ^ 24 := by
  rcases hu : near_total_units g a with _ | u
  · rw [near_burn, hu] at h
    exact absurd h (by simp)
  · rw [near_burn, hu] at h
    obtain ⟨rfl, -⟩ := near_total_units_some hu
    simpa using h.symm

/-- A successful `evm_burn` is the exact scaled product. -/
theorem evm_burn_some {gp gas a : ℕ} {b : ℚ} (h : evm_burn gp gas a = some b) :
    b = ((gp * gas * a : ℕ) : ℚ) / 10 ^ 18 := by
  rcases hu : evm_total_units gp gas a with _ | u
  · rw [evm_burn, hu] at h
    exact absurd h (by simp)
  · rw [evm_burn, hu] at h
    obtain ⟨rfl, -⟩ := evm_total_units_some hu
    simpa using h.symm

/-- A successful `sol_burn` is the exact scaled product. -/
theorem sol_burn_some {a : ℕ} {b : ℚ} (h : sol_burn a = some b) :
    b = ((SOLANA_GAS * a : ℕ) : ℚ) / 10 ^ 9 := by
  rcases hu : sol_total_units a with _ | u
  · rw [sol_burn, hu] at h
    exact absurd h (by simp)
  · rw [sol_burn, hu] at h
    obtain ⟨rfl, -⟩ := u128chk_some hu
    simpa using h.symm
/-- Any line `get_near_fees` prints comes from a successful burn computation
and a present token price, and is exactly the NEAR format line. -/
theorem get_near_fees_snd {net : Net} {a : ℕ} {cur : String} {l : FeeLine}
    (h : (get_near_fees net a cur).2 = some l) :
    ∃ b p, near_burn net.nearGasPrice a = some b ∧
      net.tokenPrice "near" cur = some p ∧
      l = ⟨ChainKind.Near, "NEAR", a, b, 3, "NEARs", b * p, cur⟩ := by
  rcases hb : near_burn net.nearGasPrice a with _ | b
  · simp [get_near_fees, get_near_gas_price, get_token_price, price_token_id, hb] at h
  · rcases hp : net.tokenPrice "near" cur with _ | p
    · simp [get_near_fees, get_near_gas_price, get_token_price, price_token_id,
        hb, hp] at h
    · simp only [get_near_fees, get_near_gas_price, get_token_price,
        price_token_id, hb, hp, Option.some.injEq] at h
      exact ⟨b, p, rfl, rfl, h.symm⟩

/-- Any line `get_evm_fees` prints comes from a resolved gas constant, the
fetched gas price, a successful burn computation and a present token price,
and is exactly the EVM format line. -/
theorem get_evm_fees_snd {net : Net} {chain : ChainKind} {a : ℕ} {cur : String}
    {l : FeeLine} (h : (get_evm_fees net chain a cur).2 = some l) :
    ∃ gas b p, evm_gas_const chain = some gas ∧
      evm_burn (net.evmGasPrice chain) gas a = some b ∧
      net.tokenPrice (price_token_id chain) cur = some p ∧
      l = ⟨chain, chainDebugText chain, a, b, 3, "ETHs", b * p, cur⟩ := by
  cases chain <;>
    simp only [get_evm_fees, evm_gas_const, get_evm_gas_price, evm_rpc_url,
      get_token_price, price_token_id] at h
  case Near => exact Option.noConfusion h
  case Eth => exact Option.noConfusion h
  case Sol => exact Option.noConfusion h
  case Base =>
    rcases hb : evm_burn (net.evmGasPrice ChainKind.Base) BASE_GAS a with _ | b
    · rw [hb] at h
      exact Option.noConfusion h
    · rw [hb] at h
      rcases hp : net.tokenPrice "ethereum" cur with _ | p
      · rw [hp] at h
        exact Option.noConfusion h
      · rw [hp] at h
        simp only [Option.some.injEq] at h
        exact ⟨BASE_GAS, b, p, rfl, hb, by simp [price_token_id, hp], by
          simp [chainDebugText, h.symm]⟩
  case Arb =>
    rcases hb : evm_burn (net.evmGasPrice ChainKind.Arb) ARB_GAS a with _ | b
    · rw [hb] at h
      exact Option.noConfusion h
    · rw [hb] at h
      rcases hp : net.tokenPrice "ethereum" cur with _ | p
      · rw [hp] at h
        exact Option.noConfusion h
      · rw [hp] at h
        simp only [Option.some.injEq] at h
        exact ⟨ARB_GAS, b, p, rfl, hb, by simp [price_token_id, hp], by
          simp [chainDebugText, h.symm]⟩

/-- Any line `get_solana_fees` prints comes from a successful burn
computation and a present token price, and is exactly the Solana format
line. -/
theorem get_solana_fees_snd {net : Net} {a : ℕ} {cur : String} {l : FeeLine}
    (h : (get_solana_fees net a cur).2 = some l) :
    ∃ b p, sol_burn a = some b ∧
      net.tokenPrice "solana" cur = some p ∧
      l = ⟨ChainKind.Sol, "Solana", a, b, 6, "SOLs", b * p, cur⟩ := by
  rcases hb : sol_burn a with _ | b
  · simp [get_solana_fees, get_token_price, price_token_id, hb] at h
  · rcases hp : net.tokenPrice "solana" cur with _ | p
    · simp [get_solana_fees, get_token_price, price_token_id, hb, hp] at h
    · simp only [get_solana_fees, get_token_price, price_token_id, hb, hp,
        Option.some.injEq] at h
      exact ⟨b, p, rfl, rfl, h.symm⟩
/-- C1: for every NEAR gas price and transfer count, the burn printed by the
NEAR fee calculator is `(gas_price * 33220000000000 + 600000000000000000000)
* amount`, converted to `f64` and divided by `1e24`. -/
theorem near_burn_matches_formula (net : Net) (amount : ℕ) (currency : String)
    (l : FeeLine) (h : (get_near_fees net amount currency).2 = some l) :
    l.burn = ((net.nearGasPrice : ℚ) * (NEAR_GAS : ℚ) +
      (NEAR_FIN_TRANSFER_DEPOSIT : ℚ)) * (amount : ℚ) / 10 ^ 24 := by
  obtain ⟨b, p, hb, hp, hl⟩ := get_near_fees_snd h
  subst hl
  show b = _
  rw [near_burn_some hb]
  push_cast
  ring

/-- C2: for every fetched gas price and transfer count, the burn printed by
the EVM fee calculator is `gas_price * 127652 * amount / 1e18` for Base and
`gas_price * 149503 * amount / 1e18` for Arbitrum. -/
theorem evm_burn_matches_formula (net : Net) (amount : ℕ) (currency : String) :
    (∀ l, (get_evm_fees net ChainKind.Base amount currency).2 = some l →
      l.burn = (net.evmGasPrice ChainKind.Base : ℚ) * (BASE_GAS : ℚ) *
        (amount : ℚ) / 10 ^ 18) ∧
    (∀ l, (get_evm_fees net ChainKind.Arb amount currency).2 = some l →
      l.burn = (net.evmGasPrice ChainKind.Arb : ℚ) * (ARB_GAS : ℚ) *
        (amount : ℚ) / 10 ^ 18) := by
  refine ⟨fun l h => ?_, fun l h => ?_⟩ <;>
    obtain ⟨gas, b, p, hg, hb, hp, hl⟩ := get_evm_fees_snd h <;>
    injection hg with hg <;>
    subst hg <;>
    subst hl <;>
    show b = _ <;>
    rw [evm_burn_some hb] <;>
    push_cast <;>
    ring

/-- C3: the Solana fee calculator makes no gas-price network call (its only
possible call is the price-oracle lookup), and the burn it prints is
`103372 * amount / 1e9`. -/
theorem solana_burn_fixed_constant (net : Net) (amount : ℕ) (currency : String) :
    ((get_solana_fees net amount currency).1 = [] ∨
      (get_solana_fees net amount currency).1 =
        [NetCall.tokenPrice "solana" currency]) ∧
    (∀ l, (get_solana_fees net amount currency).2 = some l →
      l.burn = (SOLANA_GAS : ℚ) * (amount : ℚ) / 10 ^ 9) := by
  constructor
  · rcases hb : sol_burn amount with _ | b
    · exact Or.inl (by simp [get_solana_fees, hb])
    · rcases hp : net.tokenPrice "solana" currency with _ | p
      · exact Or.inr (by
          simp [get_solana_fees, hb, get_token_price, price_token_id, hp])
      · exact Or.inr (by
          simp [get_solana_fees, hb, get_token_price, price_token_id, hp])
  · intro l h
    obtain ⟨b, p, hb, hp, hl⟩ := get_solana_fees_snd h
    subst hl
    show b = _
    rw [sol_burn_some hb]
    push_cast
    ring

/-- C4: for every supported chain, every fetched gas price and every (finite)
token price, a run with transfer count 0 prints burn 0 and fiat 0. -/
theorem zero_amount_zero_fees (net : Net) (currency : String) :
    (∀ l, (get_near_fees net 0 currency).2 = some l →
      l.burn = 0 ∧ l.fiat = 0) ∧
    (∀ l, (get_evm_fees net ChainKind.Base 0 currency).2 = some l →
      l.burn = 0 ∧ l.fiat = 0) ∧
    (∀ l, (get_evm_fees net ChainKind.Arb 0 currency).2 = some l →
      l.burn = 0 ∧ l.fiat = 0) ∧
    (∀ l, (get_solana_fees net 0 currency).2 = some l →
      l.burn = 0 ∧ l.fiat = 0) := by
  refine ⟨fun l h => ?_, fun l h => ?_, fun l h => ?_, fun l h => ?_⟩
  · obtain ⟨b, p, hb, hp, hl⟩ := get_near_fees_snd h
    have hb' := near_burn_some hb
    simp only [Nat.mul_zero, Nat.cast_zero, zero_div] at hb'
    subst hl
    subst hb'
    exact ⟨rfl, zero_mul p⟩
  · obtain ⟨gas, b, p, hg, hb, hp, hl⟩ := get_evm_fees_snd h
    have hb' := evm_burn_some hb
    simp only [Nat.mul_zero, Nat.cast_zero, zero_div] at hb'
    subst hl
    subst hb'
    exact ⟨rfl, zero_mul p⟩
  · obtain ⟨gas, b, p, hg, hb, hp, hl⟩ := get_evm_fees_snd h
    have hb' := evm_burn_some hb
    simp only [Nat.mul_zero, Nat.cast_zero, zero_div] at hb'
    subst hl
    subst hb'
    exact ⟨rfl, zero_mul p⟩
  · obtain ⟨b, p, hb, hp, hl⟩ := get_solana_fees_snd h
    have hb' := sol_burn_some hb
    simp only [Nat.mul_zero, Nat.cast_zero, zero_div] at hb'
    subst hl
    subst hb'
    exact ⟨rfl, zero_mul p⟩
/-- Monotonicity of the NEAR burn in the transfer count, given the larger
count does not overflow. -/
theorem near_burn_mono {g a1 a2 : ℕ} (hle : a1 ≤ a2) {b2 : ℚ}
    (h : near_burn g a2 = some b2) :
    ∃ b1, near_burn g a1 = some b1 ∧ b1 ≤ b2 := by
  rcases hu : near_total_units g a2 with _ | u
  · rw [near_burn, hu] at h
    exact Option.noConfusion h
  · rw [near_burn, hu] at h
    simp only [Option.some.injEq] at h
    obtain ⟨rfl, h1, h2, h3⟩ := near_total_units_some hu
    have hmul : (g * NEAR_GAS + NEAR_FIN_TRANSFER_DEPOSIT) * a1 ≤
        (g * NEAR_GAS + NEAR_FIN_TRANSFER_DEPOSIT) * a2 :=
      Nat.mul_le_mul (le_refl _) hle
    have hunits := near_total_units_of_lt h1 h2 (lt_of_le_of_lt hmul h3)
    refine ⟨(((g * NEAR_GAS + NEAR_FIN_TRANSFER_DEPOSIT) * a1 : ℕ) : ℚ) / 10 ^ 24,
      by rw [near_burn, hunits], ?_⟩
    rw [← h]
    gcongr

/-- Monotonicity of the EVM burn in the transfer count, given the larger
count does not overflow. -/
theorem evm_burn_mono {gp gas a1 a2 : ℕ} (hle : a1 ≤ a2) {b2 : ℚ}
    (h : evm_burn gp gas a2 = some b2) :
    ∃ b1, evm_burn gp gas a1 = some b1 ∧ b1 ≤ b2 := by
  rcases hu : evm_total_units gp gas a2 with _ | u
  · rw [evm_burn, hu] at h
    exact Option.noConfusion h
  · rw [evm_burn, hu] at h
    simp only [Option.some.injEq] at h
    obtain ⟨rfl, h1, h2⟩ := evm_total_units_some hu
    have hmul : gp * gas * a1 ≤ gp * gas * a2 := Nat.mul_le_mul (le_refl _) hle
    have hunits := evm_total_units_of_lt h1 (lt_of_le_of_lt hmul h2)
    refine ⟨((gp * gas * a1 : ℕ) : ℚ) / 10 ^ 18, by rw [evm_burn, hunits], ?_⟩
    rw [← h]
    gcongr

/-- Monotonicity of the Solana burn in the transfer count, given the larger
count does not overflow. -/
theorem sol_burn_mono {a1 a2 : ℕ} (hle : a1 ≤ a2) {b2 : ℚ}
    (h : sol_burn a2 = some b2) :
    ∃ b1, sol_burn a1 = some b1 ∧ b1 ≤ b2 := by
  rcases hu : sol_total_units a2 with _ | u
  · rw [sol_burn, hu] at h
    exact Option.noConfusion h
  · rw [sol_burn, hu] at h
    simp only [Option.some.injEq] at h
    obtain ⟨rfl, h1⟩ := u128chk_some hu
    have hmul : SOLANA_GAS * a1 ≤ SOLANA_GAS * a2 := Nat.mul_le_mul (le_refl _) hle
    have hunits : sol_total_units a1 = some (SOLANA_GAS * a1) :=
      u128chk_of_lt (lt_of_le_of_lt hmul h1)
    refine ⟨((SOLANA_GAS * a1 : ℕ) : ℚ) / 10 ^ 9, by rw [sol_burn, hunits], ?_⟩
    rw [← h]
    gcongr
/-- C5: with no destination-chain argument, a normally terminating run
prints exactly four fee lines, for NEAR, Base, Arbitrum and Solana in that
fixed order, prints nothing to stderr, and never prints an Ethereum line. -/
theorem all_chains_order (net : Net) (amount : ℕ) (currency : String)
    (h : (runMain net ⟨none, amount, currency⟩).ok = true) :
    (runMain net ⟨none, amount, currency⟩).stdout.map FeeLine.chain =
      [ChainKind.Near, ChainKind.Base, ChainKind.Arb, ChainKind.Sol] ∧
    (runMain net ⟨none, amount, currency⟩).stderr = [] ∧
    ChainKind.Eth ∉ (runMain net ⟨none, amount, currency⟩).stdout.map FeeLine.chain := by
  rcases h1 : get_near_fees net amount currency with ⟨c1, _ | l1⟩
  · simp [runMain, seqFee, initRun, h1] at h
  rcases h2 : get_evm_fees net ChainKind.Base amount currency with ⟨c2, _ | l2⟩
  · simp [runMain, seqFee, initRun, h1, h2] at h
  rcases h3 : get_evm_fees net ChainKind.Arb amount currency with ⟨c3, _ | l3⟩
  · simp [runMain, seqFee, initRun, h1, h2, h3] at h
  rcases h4 : get_solana_fees net amount currency with ⟨c4, _ | l4⟩
  · simp [runMain, seqFee, initRun, h1, h2, h3, h4] at h
  obtain ⟨b1, p1, -, -, hl1⟩ := get_near_fees_snd (by rw [h1] :
    (get_near_fees net amount currency).2 = some l1)
  obtain ⟨g2, b2, p2, -, -, -, hl2⟩ := get_evm_fees_snd (by rw [h2] :
    (get_evm_fees net ChainKind.Base amount currency).2 = some l2)
  obtain ⟨g3, b3, p3, -, -, -, hl3⟩ := get_evm_fees_snd (by rw [h3] :
    (get_evm_fees net ChainKind.Arb amount currency).2 = some l3)
  obtain ⟨b4, p4, -, -, hl4⟩ := get_solana_fees_snd (by rw [h4] :
    (get_solana_fees net amount currency).2 = some l4)
  subst hl1
  subst hl2
  subst hl3
  subst hl4
  simp [runMain, seqFee, initRun, h1, h2, h3, h4]

/-- C6: with destination chain Eth, the run makes no network call, performs
no burn computation, prints only the unsupported-chain notice to stderr, and
terminates normally. -/
theorem eth_unsupported_notice (net : Net) (amount : ℕ) (currency : String) :
    runMain net ⟨some ChainKind.Eth, amount, currency⟩ =
      { calls := [], stdout := [], stderr := [ethNotice], ok := true } := rfl

/-- C7: the EVM fee calculator and the EVM gas-price fetcher panic before
making any call when given a chain other than Base or Arb, and for Base or
Arb the fatal branch is unreachable: the gas constant and the RPC url
resolve and the gas-price call returns a value. -/
theorem evm_requires_base_or_arb (net : Net) (chain : ChainKind) (amount : ℕ)
    (currency : String) :
    ((chain ≠ ChainKind.Base ∧ chain ≠ ChainKind.Arb) →
      get_evm_fees net chain amount currency = ([], none) ∧
      get_evm_gas_price net chain = ([], none)) ∧
    ((chain = ChainKind.Base ∨ chain = ChainKind.Arb) →
      (evm_gas_const chain).isSome = true ∧ (evm_rpc_url chain).isSome = true ∧
      (get_evm_gas_price net chain).2.isSome = true) := by
  cases chain <;>
    simp [get_evm_fees, get_evm_gas_price, evm_gas_const, evm_rpc_url]

/-- C8: for every supported destination chain and currency, a price-oracle
response lacking the requested currency field under the token key makes the
run abort with an error, printing no line for that chain, not even
partially. -/
theorem missing_currency_aborts (net : Net) (chain : ChainKind) (amount : ℕ)
    (currency : String) (hchain : chain ≠ ChainKind.Eth)
    (hmissing : net.tokenPrice (price_token_id chain) currency = none) :
    (runMain net ⟨some chain, amount, currency⟩).ok = false ∧
    (runMain net ⟨some chain, amount, currency⟩).stdout = [] := by
  cases chain
  case Eth => exact absurd rfl hchain
  case Near =>
    simp only [price_token_id] at hmissing
    rcases hb : near_burn net.nearGasPrice amount with _ | b <;>
      simp [runMain, seqFee, initRun, get_near_fees, get_near_gas_price,
        get_token_price, price_token_id, hb, hmissing]
  case Base =>
    simp only [price_token_id] at hmissing
    rcases hb : evm_burn (net.evmGasPrice ChainKind.Base) BASE_GAS amount with _ | b <;>
      simp [runMain, seqFee, initRun, get_evm_fees, evm_gas_const,
        get_evm_gas_price, evm_rpc_url, get_token_price, price_token_id, hb,
        hmissing]
  case Arb =>
    simp only [price_token_id] at hmissing
    rcases hb : evm_burn (net.evmGasPrice ChainKind.Arb) ARB_GAS amount with _ | b <;>
      simp [runMain, seqFee, initRun, get_evm_fees, evm_gas_const,
        get_evm_gas_price, evm_rpc_url, get_token_price, price_token_id, hb,
        hmissing]
  case Sol =>
    simp only [price_token_id] at hmissing
    rcases hb : sol_burn amount with _ | b <;>
      simp [runMain, seqFee, initRun, get_solana_fees, get_token_price,
        price_token_id, hb, hmissing]

/-- C9: for each supported chain, with the same oracle answers, the line a
single-chain run prints is identical to that chain line in the all-chains
run: a successful all-chains run stdout is the concatenation of the four
single-chain runs stdout. -/
theorem single_chain_matches_all_chains (net : Net) (amount : ℕ)
    (currency : String) (h : (runMain net ⟨none, amount, currency⟩).ok = true) :
    (runMain net ⟨none, amount, currency⟩).stdout =
      (runMain net ⟨some ChainKind.Near, amount, currency⟩).stdout ++
      (runMain net ⟨some ChainKind.Base, amount, currency⟩).stdout ++
      (runMain net ⟨some ChainKind.Arb, amount, currency⟩).stdout ++
      (runMain net ⟨some ChainKind.Sol, amount, currency⟩).stdout := by
  rcases h1 : get_near_fees net amount currency with ⟨c1, _ | l1⟩
  · simp [runMain, seqFee, initRun, h1] at h
  rcases h2 : get_evm_fees net ChainKind.Base amount currency with ⟨c2, _ | l2⟩
  · simp [runMain, seqFee, initRun, h1, h2] at h
  rcases h3 : get_evm_fees net ChainKind.Arb amount currency with ⟨c3, _ | l3⟩
  · simp [runMain, seqFee, initRun, h1, h2, h3] at h
  rcases h4 : get_solana_fees net amount currency with ⟨c4, _ | l4⟩
  · simp [runMain, seqFee, initRun, h1, h2, h3, h4] at h
  simp [runMain, seqFee, initRun, h1, h2, h3, h4]

/-- C10: for every supported chain and fixed fetched gas price, the computed
burn is monotonically non-decreasing in the transfer count, provided the
intermediate u128 products at the larger count do not overflow. -/
theorem burn_monotone_in_amount (g a1 a2 : ℕ) (hle : a1 ≤ a2) :
    (∀ b2, near_burn g a2 = some b2 →
      ∃ b1, near_burn g a1 = some b1 ∧ b1 ≤ b2) ∧
    (∀ b2, evm_burn g BASE_GAS a2 = some b2 →
      ∃ b1, evm_burn g BASE_GAS a1 = some b1 ∧ b1 ≤ b2) ∧
    (∀ b2, evm_burn g ARB_GAS a2 = some b2 →
      ∃ b1, evm_burn g ARB_GAS a1 = some b1 ∧ b1 ≤ b2) ∧
    (∀ b2, sol_burn a2 = some b2 →
      ∃ b1, sol_burn a1 = some b1 ∧ b1 ≤ b2) :=
  ⟨fun _ h => near_burn_mono hle h, fun _ h => evm_burn_mono hle h,
    fun _ h => evm_burn_mono hle h, fun _ h => sol_burn_mono hle h⟩
/-- Witness for C1 at gas price 100000000 and amount 1000. -/
theorem near_burn_matches_formula_witness :
    (get_near_fees netW 1000 "usd").2 =
      some ((get_near_fees netW 1000 "usd").2.getD dummyLine) ∧
    ((get_near_fees netW 1000 "usd").2.getD dummyLine).burn =
      ((netW.nearGasPrice : ℚ) * (NEAR_GAS : ℚ) +
        (NEAR_FIN_TRANSFER_DEPOSIT : ℚ)) * ((1000 : ℕ) : ℚ) / 10 ^ 24 :=
  have h : (get_near_fees netW 1000 "usd").2 =
      some ((get_near_fees netW 1000 "usd").2.getD dummyLine) :=
    opt_eq_some_getD _ _ (by decide)
  ⟨h, near_burn_matches_formula netW 1000 "usd" _ h⟩

/-- Witness for C2 at gas price 100000000 and amount 1000, for both Base and
Arb. -/
theorem evm_burn_matches_formula_witness :
    (get_evm_fees netW ChainKind.Base 1000 "usd").2 =
      some ((get_evm_fees netW ChainKind.Base 1000 "usd").2.getD dummyLine) ∧
    ((get_evm_fees netW ChainKind.Base 1000 "usd").2.getD dummyLine).burn =
      (netW.evmGasPrice ChainKind.Base : ℚ) * (BASE_GAS : ℚ) *
        ((1000 : ℕ) : ℚ) / 10 ^ 18 ∧
    (get_evm_fees netW ChainKind.Arb 1000 "usd").2 =
      some ((get_evm_fees netW ChainKind.Arb 1000 "usd").2.getD dummyLine) ∧
    ((get_evm_fees netW ChainKind.Arb 1000 "usd").2.getD dummyLine).burn =
      (netW.evmGasPrice ChainKind.Arb : ℚ) * (ARB_GAS : ℚ) *
        ((1000 : ℕ) : ℚ) / 10 ^ 18 :=
  have hB : (get_evm_fees netW ChainKind.Base 1000 "usd").2 =
      some ((get_evm_fees netW ChainKind.Base 1000 "usd").2.getD dummyLine) :=
    opt_eq_some_getD _ _ (by decide)
  have hA : (get_evm_fees netW ChainKind.Arb 1000 "usd").2 =
      some ((get_evm_fees netW ChainKind.Arb 1000 "usd").2.getD dummyLine) :=
    opt_eq_some_getD _ _ (by decide)
  ⟨hB, (evm_burn_matches_formula netW 1000 "usd").1 _ hB,
    hA, (evm_burn_matches_formula netW 1000 "usd").2 _ hA⟩

/-- Witness for C3 at amount 1000. -/
theorem solana_burn_fixed_constant_witness :
    ((get_solana_fees netW 1000 "usd").1 = [] ∨
      (get_solana_fees netW 1000 "usd").1 =
        [NetCall.tokenPrice "solana" "usd"]) ∧
    (get_solana_fees netW 1000 "usd").2 =
      some ((get_solana_fees netW 1000 "usd").2.getD dummyLine) ∧
    ((get_solana_fees netW 1000 "usd").2.getD dummyLine).burn =
      (SOLANA_GAS : ℚ) * ((1000 : ℕ) : ℚ) / 10 ^ 9 :=
  have h : (get_solana_fees netW 1000 "usd").2 =
      some ((get_solana_fees netW 1000 "usd").2.getD dummyLine) :=
    opt_eq_some_getD _ _ (by decide)
  ⟨(solana_burn_fixed_constant netW 1000 "usd").1, h,
    (solana_burn_fixed_constant netW 1000 "usd").2 _ h⟩

/-- Witness for C4 at amount 0 on all four supported chains. -/
theorem zero_amount_zero_fees_witness :
    ((get_near_fees netW 0 "usd").2 =
      some ((get_near_fees netW 0 "usd").2.getD dummyLine) ∧
      ((get_near_fees netW 0 "usd").2.getD dummyLine).burn = 0 ∧
      ((get_near_fees netW 0 "usd").2.getD dummyLine).fiat = 0) ∧
    ((get_evm_fees netW ChainKind.Base 0 "usd").2 =
      some ((get_evm_fees netW ChainKind.Base 0 "usd").2.getD dummyLine) ∧
      ((get_evm_fees netW ChainKind.Base 0 "usd").2.getD dummyLine).burn = 0 ∧
      ((get_evm_fees netW ChainKind.Base 0 "usd").2.getD dummyLine).fiat = 0) ∧
    ((get_evm_fees netW ChainKind.Arb 0 "usd").2 =
      some ((get_evm_fees netW ChainKind.Arb 0 "usd").2.getD dummyLine) ∧
      ((get_evm_fees netW ChainKind.Arb 0 "usd").2.getD dummyLine).burn = 0 ∧
      ((get_evm_fees netW ChainKind.Arb 0 "usd").2.getD dummyLine).fiat = 0) ∧
    ((get_solana_fees netW 0 "usd").2 =
      some ((get_solana_fees netW 0 "usd").2.getD dummyLine) ∧
      ((get_solana_fees netW 0 "usd").2.getD dummyLine).burn = 0 ∧
      ((get_solana_fees netW 0 "usd").2.getD dummyLine).fiat = 0) :=
  have hN : (get_near_fees netW 0 "usd").2 =
      some ((get_near_fees netW 0 "usd").2.getD dummyLine) :=
    opt_eq_some_getD _ _ (by decide)
  have hB : (get_evm_fees netW ChainKind.Base 0 "usd").2 =
      some ((get_evm_fees netW ChainKind.Base 0 "usd").2.getD dummyLine) :=
    opt_eq_some_getD _ _ (by decide)
  have hA : (get_evm_fees netW ChainKind.Arb 0 "usd").2 =
      some ((get_evm_fees netW ChainKind.Arb 0 "usd").2.getD dummyLine) :=
    opt_eq_some_getD _ _ (by decide)
  have hS : (get_solana_fees netW 0 "usd").2 =
      some ((get_solana_fees netW 0 "usd").2.getD dummyLine) :=
    opt_eq_some_getD _ _ (by decide)
  ⟨⟨hN, (zero_amount_zero_fees netW "usd").1 _ hN⟩,
    ⟨hB, (zero_amount_zero_fees netW "usd").2.1 _ hB⟩,
    ⟨hA, (zero_amount_zero_fees netW "usd").2.2.1 _ hA⟩,
    ⟨hS, (zero_amount_zero_fees netW "usd").2.2.2 _ hS⟩⟩

/-- Witness for C5 on a fully answering oracle at amount 1000. -/
theorem all_chains_order_witness :
    (runMain netW ⟨none, 1000, "usd"⟩).ok = true ∧
    ((runMain netW ⟨none, 1000, "usd"⟩).stdout.map FeeLine.chain =
      [ChainKind.Near, ChainKind.Base, ChainKind.Arb, ChainKind.Sol] ∧
    (runMain netW ⟨none, 1000, "usd"⟩).stderr = [] ∧
    ChainKind.Eth ∉ (runMain netW ⟨none, 1000, "usd"⟩).stdout.map FeeLine.chain) :=
  have h : (runMain netW ⟨none, 1000, "usd"⟩).ok = true := by decide
  ⟨h, all_chains_order netW 1000 "usd" h⟩

/-- Witness for C7: Eth hits the fatal branch before any call, Base does
not. -/
theorem evm_requires_base_or_arb_witness :
    (ChainKind.Eth ≠ ChainKind.Base ∧ ChainKind.Eth ≠ ChainKind.Arb) ∧
    (get_evm_fees netW ChainKind.Eth 1000 "usd" = ([], none) ∧
      get_evm_gas_price netW ChainKind.Eth = ([], none)) ∧
    (ChainKind.Base = ChainKind.Base ∨ ChainKind.Base = ChainKind.Arb) ∧
    ((evm_gas_const ChainKind.Base).isSome = true ∧
      (evm_rpc_url ChainKind.Base).isSome = true ∧
      (get_evm_gas_price netW ChainKind.Base).2.isSome = true) :=
  have hne : ChainKind.Eth ≠ ChainKind.Base ∧ ChainKind.Eth ≠ ChainKind.Arb := by
    decide
  have hor : ChainKind.Base = ChainKind.Base ∨ ChainKind.Base = ChainKind.Arb :=
    Or.inl rfl
  ⟨hne, (evm_requires_base_or_arb netW ChainKind.Eth 1000 "usd").1 hne,
    hor, (evm_requires_base_or_arb netW ChainKind.Base 1000 "usd").2 hor⟩

/-- Witness for C8: an oracle whose near price response lacks the usd field
aborts the NEAR run with nothing printed. -/
theorem missing_currency_aborts_witness :
    ChainKind.Near ≠ ChainKind.Eth ∧
    netNoPrice.tokenPrice (price_token_id ChainKind.Near) "usd" = none ∧
    ((runMain netNoPrice ⟨some ChainKind.Near, 1000, "usd"⟩).ok = false ∧
      (runMain netNoPrice ⟨some ChainKind.Near, 1000, "usd"⟩).stdout = []) :=
  have h1 : ChainKind.Near ≠ ChainKind.Eth := by decide
  have h2 : netNoPrice.tokenPrice (price_token_id ChainKind.Near) "usd" = none :=
    rfl
  ⟨h1, h2, missing_currency_aborts netNoPrice ChainKind.Near 1000 "usd" h1 h2⟩

/-- Witness for C9 on a fully answering oracle at amount 1000. -/
theorem single_chain_matches_all_chains_witness :
    (runMain netW ⟨none, 1000, "usd"⟩).ok = true ∧
    (runMain netW ⟨none, 1000, "usd"⟩).stdout =
      (runMain netW ⟨some ChainKind.Near, 1000, "usd"⟩).stdout ++
      (runMain netW ⟨some ChainKind.Base, 1000, "usd"⟩).stdout ++
      (runMain netW ⟨some ChainKind.Arb, 1000, "usd"⟩).stdout ++
      (runMain netW ⟨some ChainKind.Sol, 1000, "usd"⟩).stdout :=
  have h : (runMain netW ⟨none, 1000, "usd"⟩).ok = true := by decide
  ⟨h, single_chain_matches_all_chains netW 1000 "usd" h⟩

/-- Witness for C10 at gas price 100000000, amounts 1 and 2. -/
theorem burn_monotone_in_amount_witness :
    (1 : ℕ) ≤ 2 ∧
    near_burn 100000000 2 = some ((near_burn 100000000 2).getD 0) ∧
    (∃ b1, near_burn 100000000 1 = some b1 ∧
      b1 ≤ (near_burn 100000000 2).getD 0) :=
  have hle : (1 : ℕ) ≤ 2 := by decide
  have h2 : near_burn 100000000 2 = some ((near_burn 100000000 2).getD 0) :=
    opt_eq_some_getD _ _ (by decide)
  ⟨hle, h2, (burn_monotone_in_amount 100000000 1 2 hle).1 _ h2⟩
/-- Evaluation of the NEAR burn at the representative input from the
specification: gas price 100000000 and amount 1000 give 3.922 NEAR. -/
theorem near_burn_sample_value : near_burn 100000000 1000 = some (3922 / 1000) := by
  have hu : near_total_units 100000000 1000 = some 3922000000000000000000000 := by
    decide
  rw [near_burn, hu]
  norm_num
